import Mathlib

/-!
Verification of the MyShell command interpreter (myshell.c / utility.c /
myshell.h): a shallow embedding of the command parser, the dispatcher and
the external executor, together with proofs about them.

Conventions of the embedding:
* The C `Command` struct keeps its fields; the fixed `char *args[MAX_ARGS]`
  array is modelled as a total function `Nat → Option String` (`none` is a
  NULL pointer).  Since the struct in the C source is `static`, the array
  may hold stale entries from a previous call; the model threads this stale
  content through `parse_command` as an explicit parameter.
* `strtok(line, " \t")` is modelled by splitting on space/tab and dropping
  empty pieces (strtok never yields empty tokens).
* System calls (`dup`, `open`, `dup2`, `fork`, `waitpid`, `chdir`,
  `opendir`) are oracles packaged in an `Env`; the dispatcher and executor
  additionally emit a trace of file-descriptor and invocation events so
  that statements such as "stdout was never redirected" can be expressed.
* Return codes keep the C convention: `0` success, `-1` failure, `-999`
  exit request.
-/

namespace MyShell

/-- MAX_LINE from myshell.h. -/
def MAX_LINE : Nat := 1024

/-- MAX_ARGS from myshell.h. -/
def MAX_ARGS : Nat := 64

/-- The Command struct from myshell.h: argument array (NULL-terminated for
execvp), argument count, optional redirection files, append and background
flags. -/
structure Command where
  args : Nat → Option String
  argc : Nat
  input_file : Option String
  output_file : Option String
  append_mode : Bool
  background : Bool

/-- Delimiters of the strtok calls in parse_command: space and tab. -/
def isDelim (c : Char) : Bool := c = ' ' || c = '\t'

/-- Accumulating scanner behind `tokenize`: `acc` is the current token
read so far, in reverse. -/
def tokenAux : List Char → List Char → List String
  | [], acc => if acc = [] then [] else [⟨acc.reverse⟩]
  | c :: cs, acc =>
    if isDelim c then
      if acc = [] then tokenAux cs [] else ⟨acc.reverse⟩ :: tokenAux cs []
    else tokenAux cs (c :: acc)

/-- The token stream produced by repeated strtok(·, " \t"): maximal
nonempty runs of non-delimiter characters. -/
def tokenize (s : String) : List String := tokenAux s.data []

/-- The strncpy(line_copy, line, MAX_LINE - 1) truncation in
parse_command. -/
def truncLine (s : String) : String := ⟨s.data.take (MAX_LINE - 1)⟩

/-- The assignment cmd.args[cmd.argc++] = token of the ordinary-argument
branch of parse_command. -/
def setArg (cmd : Command) (tok : String) : Command :=
  { cmd with args := fun j => if j = cmd.argc then some tok else cmd.args j,
             argc := cmd.argc + 1 }

/-- The token-processing while loop of parse_command.  Each iteration runs
while the current token is non-NULL and argc < MAX_ARGS - 1; the
redirection branches consume the following token (if any) as the file
name, `&` sets the background flag, and any other token is appended to the
argument array. -/
def parseLoop : List String → Command → Command
  | [], cmd => cmd
  | tok :: rest, cmd =>
    if cmd.argc < MAX_ARGS - 1 then
      if tok = "<" then
        match rest with
        | [] => cmd
        | f :: rest2 => parseLoop rest2 { cmd with input_file := some f }
      else if tok = ">" then
        match rest with
        | [] => cmd
        | f :: rest2 =>
            parseLoop rest2 { cmd with output_file := some f, append_mode := false }
      else if tok = ">>" then
        match rest with
        | [] => cmd
        | f :: rest2 =>
            parseLoop rest2 { cmd with output_file := some f, append_mode := true }
      else if tok = "&" then
        parseLoop rest { cmd with background := true }
      else
        parseLoop rest (setArg cmd tok)
    else cmd

/-- The initialisation of the static Command struct at the top of
parse_command; `stale` is whatever the static args array held before this
call. -/
def initCommand (stale : Nat → Option String) : Command :=
  { args := stale, argc := 0, input_file := none, output_file := none,
    append_mode := false, background := false }

/-- parse_command after strtok has produced the token list: run the loop,
write the NULL terminator args[argc] = NULL, and return NULL when no
argument was collected. -/
def parse_tokens (stale : Nat → Option String) (toks : List String) :
    Option Command :=
  let cmd := parseLoop toks (initCommand stale)
  let cmd := { cmd with args := fun j => if j = cmd.argc then none else cmd.args j }
  if cmd.argc = 0 then none else some cmd

/-- parse_command from myshell.c: truncate the line as strncpy does,
tokenize it as strtok does, and run the parsing loop. -/
def parse_command (stale : Nat → Option String) (line : String) :
    Option Command :=
  parse_tokens stale (tokenize (truncLine line))

/-- A stale args array that is all NULL (a fresh static struct). -/
def stale0 : Nat → Option String := fun _ => none

/-- Observable events of execute_command / execute_external: descriptor
manipulation around the dir/echo redirection, builtin invocation, and the
parent side of the fork. -/
inductive Ev
  /-- saved_stdout = dup(STDOUT_FILENO) succeeded. -/
  | dupSaved
  /-- open(cmd->output_file, flags, 0644) succeeded. -/
  | openOutput (f : String)
  /-- dup2(fd_out, STDOUT_FILENO) succeeded: stdout now points at the file. -/
  | dup2ToStdout
  /-- close(fd_out). -/
  | closeFdOut
  /-- close(saved_stdout). -/
  | closeSaved
  /-- dup2(saved_stdout, STDOUT_FILENO): stdout restored. -/
  | dup2RestoreStdout
  /-- a builtin cmd_* function was invoked. -/
  | runBuiltin (name : String)
  /-- fork succeeded (parent side, child pid recorded). -/
  | forkChild
  /-- printf("[后台进程] PID: %d\n", pid): the background pid is reported. -/
  | printBgPid (pid : Nat)
  /-- waitpid(pid, &status, 0) was performed. -/
  | waitCall
deriving DecidableEq, Repr

/-- Outcome of waitpid as the C code inspects it: the call itself failed,
the child exited normally with WEXITSTATUS `status`, or the child was
terminated abnormally (by a signal). -/
inductive WaitRes
  | failed
  | exited (status : Nat)
  | signaled
deriving DecidableEq, Repr

/-- Oracle for the system calls and builtin outcomes the dispatcher and
executor depend on. -/
structure Env where
  /-- dup(STDOUT_FILENO) succeeds. -/
  dup_ok : Bool
  /-- open(f, O_WRONLY | O_CREAT | ..., 0644) succeeds for file f. -/
  open_ok : String → Bool
  /-- dup2(fd_out, STDOUT_FILENO) succeeds. -/
  dup2_ok : Bool
  /-- result of cmd_cd (depends on chdir/getcwd). -/
  cd_result : Int
  /-- result of cmd_dir (depends on opendir). -/
  dir_result : Int
  /-- fork succeeds. -/
  fork_ok : Bool
  /-- the child pid returned by a successful fork. -/
  child_pid : Nat
  /-- what waitpid observes about the foreground child. -/
  wait_res : WaitRes

/-- cmd_clr from myshell.c: clears the screen, always returns 0. -/
def cmd_clr (_cmd : Command) : Int := 0

/-- cmd_quit from myshell.c: returns the exit signal -999. -/
def cmd_quit (_cmd : Command) : Int := -999

/-- cmd_pause from myshell.c: waits for Enter, always returns 0. -/
def cmd_pause (_cmd : Command) : Int := 0

/-- cmd_echo from utility.c: prints its arguments, always returns 0. -/
def cmd_echo (_cmd : Command) : Int := 0

/-- cmd_environ from utility.c: prints the environment, always returns 0. -/
def cmd_environ (_cmd : Command) : Int := 0

/-- cmd_help from utility.c: prints the manual; every path returns 0. -/
def cmd_help (_cmd : Command) : Int := 0

/-- cmd_cd from myshell.c: 0 or -1 depending on getcwd/chdir, supplied by
the environment oracle. -/
def cmd_cd (env : Env) (_cmd : Command) : Int := env.cd_result

/-- cmd_dir from utility.c: 0 or -1 depending on opendir, supplied by the
environment oracle. -/
def cmd_dir (env : Env) (_cmd : Command) : Int := env.dir_result

/-- execute_external from utility.c, parent side, with the event trace it
produces.  fork failure returns -1 at once; a background child has its pid
printed and the function returns 0 without waiting; a foreground child is
waited for, and the wait outcome is mapped to 0 / -1 exactly as the C code
does (WIFEXITED with status 0 falls through to return 0, everything else
returns -1). -/
def execute_external (env : Env) (cmd : Command) : Int × List Ev :=
  if env.fork_ok = false then (-1, [])
  else if cmd.background then (0, [.forkChild, .printBgPid env.child_pid])
  else
    match env.wait_res with
    | .failed => (-1, [.forkChild, .waitCall])
    | .exited status =>
        if status ≠ 0 then (-1, [.forkChild, .waitCall])
        else (0, [.forkChild, .waitCall])
    | .signaled => (-1, [.forkChild, .waitCall])

/-- execute_command from myshell.c, with its event trace.  It dispatches
on args[0]; dir and echo get the scoped stdout redirection (dup the
current stdout, open the target, dup2 it onto stdout, run the builtin,
restore and close), every failure path closing exactly the descriptors the
C code closes; everything not in the builtin table goes to
execute_external. -/
def execute_command (env : Env) (cmd : Command) : Int × List Ev :=
  if cmd.argc = 0 then (0, [])
  else
    match cmd.args 0 with
    | none => (0, [])
    | some command =>
      if command = "cd" then (cmd_cd env cmd, [.runBuiltin "cd"])
      else if command = "clr" then (cmd_clr cmd, [.runBuiltin "clr"])
      else if command = "quit" then (cmd_quit cmd, [.runBuiltin "quit"])
      else if command = "pause" then (cmd_pause cmd, [.runBuiltin "pause"])
      else if command = "dir" ∨ command = "echo" then
        match cmd.output_file with
        | some f =>
          if env.dup_ok = false then (-1, [])
          else if env.open_ok f = false then (-1, [.dupSaved, .closeSaved])
          else if env.dup2_ok = false then
            (-1, [.dupSaved, .openOutput f, .closeFdOut, .closeSaved])
          else
            ((if command = "dir" then cmd_dir env cmd else cmd_echo cmd),
             [.dupSaved, .openOutput f, .dup2ToStdout, .closeFdOut,
              .runBuiltin command, .dup2RestoreStdout, .closeSaved])
        | none =>
          ((if command = "dir" then cmd_dir env cmd else cmd_echo cmd),
           [.runBuiltin command])
      else if command = "environ" then (cmd_environ cmd, [.runBuiltin "environ"])
      else if command = "help" then (cmd_help cmd, [.runBuiltin "help"])
      else execute_external env cmd

/-- The four control tokens recognised by parse_command. -/
def isCtlTok (t : String) : Bool := t = "<" || t = ">" || t = ">>" || t = "&"

/-- A redirection clause: one redirection operator together with the
target token that follows it. -/
inductive Redir
  | inp (f : String)
  | outw (f : String)
  | outa (f : String)
deriving DecidableEq, Repr

/-- The two tokens a redirection clause contributes to the token stream. -/
def Redir.toks : Redir → List String
  | .inp f => ["<", f]
  | .outw f => [">", f]
  | .outa f => [">>", f]

/-- Token stream of a sequence of redirection clauses. -/
def redirToks (rs : List Redir) : List String := (rs.map Redir.toks).flatten

/-- Modelled from the spec: one scan step of the "last `<` occurrence
wins" reading of the input-redirection rule. -/
def specInputStep (acc : Option String) : Redir → Option String
  | .inp f => some f
  | .outw _ => acc
  | .outa _ => acc

/-- Modelled from the spec: one scan step of the "last output-redirection
occurrence of either kind wins, and sets the append flag by its kind"
reading of the output-redirection rule. -/
def specOutStep (acc : Option String × Bool) : Redir → Option String × Bool
  | .inp _ => acc
  | .outw f => (some f, false)
  | .outa f => (some f, true)

/-- Modelled from the spec: the input redirection recorded when the last
occurrence wins, scanning left to right. -/
def specLastInput (rs : List Redir) : Option String :=
  rs.foldl specInputStep none

/-- Modelled from the spec: the output redirection and append flag
recorded when the last occurrence of either output kind wins, scanning
left to right. -/
def specLastOutput (rs : List Redir) : Option String × Bool :=
  rs.foldl specOutStep (none, false)

/-- Token streams in which every redirection operator is followed by a
target token, so that no operator is consumed as the file name of another
operator.  Such a stream leaves the strtok scanner at a clause boundary. -/
inductive WfToks : List String → Prop
  | nil : WfToks []
  | plain (t : String) (rest : List String) :
      isCtlTok t = false → WfToks rest → WfToks (t :: rest)
  | amp (rest : List String) : WfToks rest → WfToks ("&" :: rest)
  | redir (op f : String) (rest : List String) :
      op = "<" ∨ op = ">" ∨ op = ">>" → WfToks rest → WfToks (op :: f :: rest)

/-- An input line with 63 ordinary argument tokens (filling the argument
buffer to MAX_ARGS - 1) followed by two output redirections. -/
def capLine : String :=
  String.intercalate " " (List.replicate 63 "a" ++ [">", "x", ">", "y"])

/-- The Command produced by parsing the line "quit now &" against a fresh
static struct. -/
def quitCmd : Command :=
  { args := fun j => if j = 2 then none else if j = 1 then some "now"
      else if j = 0 then some "quit" else stale0 j,
    argc := 2, input_file := none, output_file := none,
    append_mode := false, background := true }

/-- The Command produced by parsing the line "ls" against a fresh static
struct. -/
def lsCmd : Command :=
  { args := fun j => if j = 1 then none else if j = 0 then some "ls" else stale0 j,
    argc := 1, input_file := none, output_file := none,
    append_mode := false, background := false }

/-- A dir command with an output redirection, as produced for
"dir > out.txt". -/
def dirCmd : Command :=
  { args := fun j => if j = 1 then none else if j = 0 then some "dir" else stale0 j,
    argc := 1, input_file := none, output_file := some "out.txt",
    append_mode := false, background := false }

/-- An external command, foreground: "gcc main.c". -/
def gccCmd : Command :=
  { args := fun j => if j = 2 then none else if j = 1 then some "main.c"
      else if j = 0 then some "gcc" else stale0 j,
    argc := 2, input_file := none, output_file := none,
    append_mode := false, background := false }

/-- A background external command, as produced for "sleep 10 &". -/
def sleepCmd : Command :=
  { args := fun j => if j = 2 then none else if j = 1 then some "10"
      else if j = 0 then some "sleep" else stale0 j,
    argc := 2, input_file := none, output_file := none,
    append_mode := false, background := true }

/-- An environment in which every system call succeeds, the foreground
child exits normally with status 0, and fork hands back pid 7. -/
def env0 : Env :=
  { dup_ok := true, open_ok := fun _ => true, dup2_ok := true,
    cd_result := 0, dir_result := 0, fork_ok := true, child_pid := 7,
    wait_res := .exited 0 }

/-- An environment in which opening any output file fails. -/
def envOpenFail : Env := { env0 with open_ok := fun _ => false }

/-- An environment in which the foreground child exits normally with the
nonzero status 3. -/
def envExit3 : Env := { env0 with wait_res := .exited 3 }

/-! Derived step equations for the parsing loop, one per branch of the C
while loop. -/

theorem parseLoop_nil (cmd : Command) : parseLoop [] cmd = cmd := rfl

theorem parseLoop_stop (ts : List String) (cmd : Command)
    (h : MAX_ARGS - 1 ≤ cmd.argc) : parseLoop ts cmd = cmd := by
  cases ts <;> (rw [parseLoop.eq_def]; try simp [Nat.not_lt.mpr h])

theorem parseLoop_input (f : String) (rest : List String) (cmd : Command)
    (h : cmd.argc < MAX_ARGS - 1) :
    parseLoop ("<" :: f :: rest) cmd =
      parseLoop rest { cmd with input_file := some f } := by
  rw [parseLoop.eq_def]; simp [h]

theorem parseLoop_input_dangling (cmd : Command)
    (h : cmd.argc < MAX_ARGS - 1) : parseLoop ["<"] cmd = cmd := by
  rw [parseLoop.eq_def]; simp [h]

theorem parseLoop_outw (f : String) (rest : List String) (cmd : Command)
    (h : cmd.argc < MAX_ARGS - 1) :
    parseLoop (">" :: f :: rest) cmd =
      parseLoop rest { cmd with output_file := some f, append_mode := false } := by
  rw [parseLoop.eq_def]; simp [h]

theorem parseLoop_outw_dangling (cmd : Command)
    (h : cmd.argc < MAX_ARGS - 1) : parseLoop [">"] cmd = cmd := by
  rw [parseLoop.eq_def]; simp [h]

theorem parseLoop_outa (f : String) (rest : List String) (cmd : Command)
    (h : cmd.argc < MAX_ARGS - 1) :
    parseLoop (">>" :: f :: rest) cmd =
      parseLoop rest { cmd with output_file := some f, append_mode := true } := by
  rw [parseLoop.eq_def]; simp [h]

theorem parseLoop_outa_dangling (cmd : Command)
    (h : cmd.argc < MAX_ARGS - 1) : parseLoop [">>"] cmd = cmd := by
  rw [parseLoop.eq_def]; simp [h]

theorem parseLoop_amp (rest : List String) (cmd : Command)
    (h : cmd.argc < MAX_ARGS - 1) :
    parseLoop ("&" :: rest) cmd =
      parseLoop rest { cmd with background := true } := by
  rw [parseLoop.eq_def]; simp [h]

theorem parseLoop_arg (tok : String) (rest : List String) (cmd : Command)
    (h : cmd.argc < MAX_ARGS - 1) (h1 : tok ≠ "<") (h2 : tok ≠ ">")
    (h3 : tok ≠ ">>") (h4 : tok ≠ "&") :
    parseLoop (tok :: rest) cmd = parseLoop rest (setArg cmd tok) := by
  rw [parseLoop.eq_def]; simp [h, h1, h2, h3, h4]

/-- The parse loop only grows the argument area: the argument count never
shrinks, slots below the initial count are untouched, and every slot
filled by the loop holds a non-control token. -/
theorem parseLoop_filled (ts : List String) (cmd : Command) :
    cmd.argc ≤ (parseLoop ts cmd).argc ∧
    (∀ i, i < cmd.argc → (parseLoop ts cmd).args i = cmd.args i) ∧
    (∀ i, cmd.argc ≤ i → i < (parseLoop ts cmd).argc →
      ∃ t, (parseLoop ts cmd).args i = some t ∧ isCtlTok t = false) := by
  induction ts, cmd using parseLoop.induct
  case case1 cmd => simp [parseLoop_nil]; omega
  case case2 cmd h => simp [parseLoop_input_dangling _ h]; omega
  case case3 cmd h f rest2 ih =>
    rw [parseLoop_input _ _ _ h]; exact ih
  case case4 cmd h hne1 => simp [parseLoop_outw_dangling _ h]; omega
  case case5 cmd h f rest2 hne1 ih =>
    rw [parseLoop_outw _ _ _ h]; exact ih
  case case6 cmd h hne1 hne2 => simp [parseLoop_outa_dangling _ h]; omega
  case case7 cmd h f rest2 hne1 hne2 ih =>
    rw [parseLoop_outa _ _ _ h]; exact ih
  case case8 rest cmd h hne1 hne2 hne3 ih =>
    rw [parseLoop_amp _ _ h]; exact ih
  case case9 tok rest cmd h h1 h2 h3 h4 ih =>
    rw [parseLoop_arg _ _ _ h h1 h2 h3 h4]
    obtain ⟨iha, ihb, ihc⟩ := ih
    refine ⟨le_trans (by simp [setArg]) iha, ?_, ?_⟩
    · intro i hi
      have hne : i ≠ cmd.argc := Nat.ne_of_lt hi
      rw [ihb i (by simp [setArg]; omega)]
      simp [setArg, hne]
    · intro i hlo hhi
      rcases Nat.lt_or_ge i (cmd.argc + 1) with hc | hc
      · have hieq : i = cmd.argc := by omega
        refine ⟨tok, ?_, ?_⟩
        · rw [hieq, ihb cmd.argc (by simp [setArg])]
          simp [setArg]
        · simp [isCtlTok, h1, h2, h3, h4]
      · exact ihc i (by simp [setArg]; omega) hhi
  case case10 tok rest cmd h =>
    rw [parseLoop_stop _ _ (by omega)]
    simp; omega

/-- Running the parse loop over a sequence of complete redirection clauses
updates only the redirection fields, by a left-to-right scan in which each
clause overwrites the previous value of its kind. -/
theorem parseLoop_redirToks (rs : List Redir) (cmd : Command)
    (h : cmd.argc < MAX_ARGS - 1) :
    parseLoop (redirToks rs) cmd =
      { cmd with
          input_file := rs.foldl specInputStep cmd.input_file,
          output_file := (rs.foldl specOutStep (cmd.output_file, cmd.append_mode)).1,
          append_mode := (rs.foldl specOutStep (cmd.output_file, cmd.append_mode)).2 } := by
  induction rs generalizing cmd with
  | nil => simp [redirToks, parseLoop_nil]
  | cons r rs ih =>
    cases r with
    | inp f =>
        rw [show redirToks (Redir.inp f :: rs) = "<" :: f :: redirToks rs from rfl,
          parseLoop_input _ _ _ h, ih { cmd with input_file := some f } h]
        simp [specInputStep, specOutStep]
    | outw f =>
        rw [show redirToks (Redir.outw f :: rs) = ">" :: f :: redirToks rs from rfl,
          parseLoop_outw _ _ _ h,
          ih { cmd with output_file := some f, append_mode := false } h]
        simp [specInputStep, specOutStep]
    | outa f =>
        rw [show redirToks (Redir.outa f :: rs) = ">>" :: f :: redirToks rs from rfl,
          parseLoop_outa _ _ _ h,
          ih { cmd with output_file := some f, append_mode := true } h]
        simp [specInputStep, specOutStep]

/-- A trailing `<` with no token after it is a no-op for the parse loop,
provided the tokens before it form complete clauses (so the `<` is
scanned as an operator, not consumed as a file name). -/
theorem parseLoop_trailing_input (ts : List String) (hwf : WfToks ts) :
    ∀ cmd : Command, parseLoop (ts ++ ["<"]) cmd = parseLoop ts cmd := by
  induction hwf with
  | nil =>
      intro cmd
      rcases Nat.lt_or_ge cmd.argc (MAX_ARGS - 1) with h | h
      · simp [parseLoop_input_dangling _ h, parseLoop_nil]
      · simp [parseLoop_stop _ _ h, parseLoop_nil]
  | plain t rest ht hrest ih =>
      intro cmd
      rcases Nat.lt_or_ge cmd.argc (MAX_ARGS - 1) with h | h
      · have hc : ((t ≠ "<" ∧ t ≠ ">") ∧ t ≠ ">>") ∧ t ≠ "&" := by
          simpa [isCtlTok] using ht
        obtain ⟨⟨⟨h1, h2⟩, h3⟩, h4⟩ := hc
        rw [List.cons_append, parseLoop_arg _ _ _ h h1 h2 h3 h4,
          parseLoop_arg _ _ _ h h1 h2 h3 h4, ih]
      · rw [parseLoop_stop _ _ h, parseLoop_stop _ _ h]
  | amp rest hrest ih =>
      intro cmd
      rcases Nat.lt_or_ge cmd.argc (MAX_ARGS - 1) with h | h
      · rw [List.cons_append, parseLoop_amp _ _ h, parseLoop_amp _ _ h, ih]
      · rw [parseLoop_stop _ _ h, parseLoop_stop _ _ h]
  | redir op f rest hop hrest ih =>
      intro cmd
      rcases Nat.lt_or_ge cmd.argc (MAX_ARGS - 1) with h | h
      · rcases hop with rfl | rfl | rfl
        · rw [List.cons_append, List.cons_append, parseLoop_input _ _ _ h,
            parseLoop_input _ _ _ h, ih]
        · rw [List.cons_append, List.cons_append, parseLoop_outw _ _ _ h,
            parseLoop_outw _ _ _ h, ih]
        · rw [List.cons_append, List.cons_append, parseLoop_outa _ _ _ h,
            parseLoop_outa _ _ _ h, ih]
      · rw [parseLoop_stop _ _ h, parseLoop_stop _ _ h]

/-! Claim theorems. -/

/-- C1: parsing the input line "sort < in.txt >> out.txt &" produces a
Command with arguments = ["sort"] (argc 1, args[0] = "sort", args[1] =
NULL), input_redirect "in.txt", output_redirect "out.txt", append_output
true, and run_in_background true, whatever the static args array held
before the call. -/
theorem claim_C1_parse_sort_line (stale : Nat → Option String) :
    (parse_command stale "sort < in.txt >> out.txt &").map Command.argc = some 1 ∧
    (parse_command stale "sort < in.txt >> out.txt &").map (fun c => c.args 0) =
      some (some "sort") ∧
    (parse_command stale "sort < in.txt >> out.txt &").map (fun c => c.args 1) =
      some none ∧
    (parse_command stale "sort < in.txt >> out.txt &").map Command.input_file =
      some (some "in.txt") ∧
    (parse_command stale "sort < in.txt >> out.txt &").map Command.output_file =
      some (some "out.txt") ∧
    (parse_command stale "sort < in.txt >> out.txt &").map Command.append_mode =
      some true ∧
    (parse_command stale "sort < in.txt >> out.txt &").map Command.background =
      some true := by
  have htok : tokenize (truncLine "sort < in.txt >> out.txt &") =
      ["sort", "<", "in.txt", ">>", "out.txt", "&"] := by decide
  unfold parse_command parse_tokens
  rw [htok]
  simp [parseLoop, setArg, initCommand, MAX_ARGS]

/-- Witness for C1 with a fresh (all-NULL) static args array. -/
theorem claim_C1_parse_sort_line_witness :
    (parse_command stale0 "sort < in.txt >> out.txt &").map Command.argc = some 1 ∧
    (parse_command stale0 "sort < in.txt >> out.txt &").map (fun c => c.args 0) =
      some (some "sort") ∧
    (parse_command stale0 "sort < in.txt >> out.txt &").map (fun c => c.args 1) =
      some none ∧
    (parse_command stale0 "sort < in.txt >> out.txt &").map Command.input_file =
      some (some "in.txt") ∧
    (parse_command stale0 "sort < in.txt >> out.txt &").map Command.output_file =
      some (some "out.txt") ∧
    (parse_command stale0 "sort < in.txt >> out.txt &").map Command.append_mode =
      some true ∧
    (parse_command stale0 "sort < in.txt >> out.txt &").map Command.background =
      some true :=
  claim_C1_parse_sort_line stale0

/-- C2: execute_command on any Command whose first argument is "quit"
returns -999 (ExitRequested), whatever the environment, the remaining
arguments, the redirection fields or the background flag. -/
theorem claim_C2_quit_always_exit (env : Env) (cmd : Command)
    (h0 : 0 < cmd.argc) (h1 : cmd.args 0 = some "quit") :
    (execute_command env cmd).1 = -999 := by
  have hne : ¬ cmd.argc = 0 := Nat.pos_iff_ne_zero.mp h0
  unfold execute_command
  rw [h1]
  simp [hne, cmd_quit]

/-- Witness for C2 at the parsed command "quit now &" in an environment
where every call succeeds. -/
theorem claim_C2_quit_always_exit_witness :
    (execute_command env0 quitCmd).1 = -999 :=
  claim_C2_quit_always_exit env0 quitCmd (by decide) rfl

/-- C3: for a dir or echo Command with an output redirection whose target
file cannot be opened (dup having succeeded), execute_command returns -1,
never invokes the builtin, never redirects stdout with dup2, and closes
the saved duplicate of stdout. -/
theorem claim_C3_failed_redirect_restores_stdout (env : Env) (cmd : Command)
    (f : String) (h0 : 0 < cmd.argc)
    (hname : cmd.args 0 = some "dir" ∨ cmd.args 0 = some "echo")
    (hout : cmd.output_file = some f)
    (hdup : env.dup_ok = true) (hopen : env.open_ok f = false) :
    (execute_command env cmd).1 = -1 ∧
    (∀ n, Ev.runBuiltin n ∉ (execute_command env cmd).2) ∧
    Ev.dup2ToStdout ∉ (execute_command env cmd).2 ∧
    Ev.closeSaved ∈ (execute_command env cmd).2 := by
  have hne : ¬ cmd.argc = 0 := Nat.pos_iff_ne_zero.mp h0
  unfold execute_command
  rcases hname with h1 | h1 <;> rw [h1] <;> simp [hne, hout, hdup, hopen]

/-- Witness for C3 at the command "dir > out.txt" in an environment where
opening the output file fails. -/
theorem claim_C3_failed_redirect_restores_stdout_witness :
    (execute_command envOpenFail dirCmd).1 = -1 ∧
    (∀ n, Ev.runBuiltin n ∉ (execute_command envOpenFail dirCmd).2) ∧
    Ev.dup2ToStdout ∉ (execute_command envOpenFail dirCmd).2 ∧
    Ev.closeSaved ∈ (execute_command envOpenFail dirCmd).2 :=
  claim_C3_failed_redirect_restores_stdout envOpenFail dirCmd "out.txt"
    (by decide) (Or.inl rfl) rfl rfl rfl

/-- C4: for a foreground command after a successful fork, execute_external
maps the termination of the child to the outcome exactly as claimed:
normal exit 0 gives 0 (Success), normal nonzero exit gives -1 (Failure),
signal termination gives -1, and a waitpid failure gives -1. -/
theorem claim_C4_foreground_wait_outcomes (env : Env) (cmd : Command)
    (hfork : env.fork_ok = true) (hbg : cmd.background = false) :
    (env.wait_res = .exited 0 → (execute_external env cmd).1 = 0) ∧
    (∀ n, n ≠ 0 → env.wait_res = .exited n → (execute_external env cmd).1 = -1) ∧
    (env.wait_res = .signaled → (execute_external env cmd).1 = -1) ∧
    (env.wait_res = .failed → (execute_external env cmd).1 = -1) := by
  unfold execute_external
  refine ⟨?_, ?_, ?_, ?_⟩
  · intro h; simp [hfork, hbg, h]
  · intro n hn h; simp [hfork, hbg, h, hn]
  · intro h; simp [hfork, hbg, h]
  · intro h; simp [hfork, hbg, h]

/-- Witness for C4: the foreground command "gcc main.c" whose child exits
with status 3 yields -1. -/
theorem claim_C4_foreground_wait_outcomes_witness :
    (execute_external envExit3 gccCmd).1 = -1 :=
  (claim_C4_foreground_wait_outcomes envExit3 gccCmd rfl rfl).2.1 3
    (by decide) rfl

/-- C5: for a background command after a successful fork, execute_external
reports the child pid as informational output, returns 0 (Success), and
performs no wait call. -/
theorem claim_C5_background_returns_immediately (env : Env) (cmd : Command)
    (hfork : env.fork_ok = true) (hbg : cmd.background = true) :
    (execute_external env cmd).1 = 0 ∧
    Ev.printBgPid env.child_pid ∈ (execute_external env cmd).2 ∧
    Ev.waitCall ∉ (execute_external env cmd).2 := by
  unfold execute_external
  simp [hfork, hbg]

/-- Witness for C5 at the background command "sleep 10 &". -/
theorem claim_C5_background_returns_immediately_witness :
    (execute_external env0 sleepCmd).1 = 0 ∧
    Ev.printBgPid env0.child_pid ∈ (execute_external env0 sleepCmd).2 ∧
    Ev.waitCall ∉ (execute_external env0 sleepCmd).2 :=
  claim_C5_background_returns_immediately env0 sleepCmd rfl rfl

/-- C6: parse_command never returns a Command with an empty argument
list: whenever it returns a Command at all, argc is positive (a token
stream with zero collected arguments yields NULL instead). -/
theorem claim_C6_no_empty_argument_list (stale : Nat → Option String)
    (line : String) (cmd : Command)
    (h : parse_command stale line = some cmd) : 0 < cmd.argc := by
  simp only [parse_command, parse_tokens] at h
  split at h
  · exact Option.noConfusion h
  · rename_i hne
    injection h with h
    subst h
    exact Nat.pos_of_ne_zero hne

/-- Witness for C6 at the line "ls". -/
theorem claim_C6_no_empty_argument_list_witness : 0 < lsCmd.argc :=
  claim_C6_no_empty_argument_list stale0 "ls" lsCmd rfl

/-- C7: no entry of the argument array of a Command returned by
parse_command is one of the control tokens "<", ">", ">>" or "&"; the
control tokens are consumed by the loop, never appended as arguments. -/
theorem claim_C7_no_control_token_argument (stale : Nat → Option String)
    (line : String) (cmd : Command)
    (h : parse_command stale line = some cmd) :
    ∀ i, i < cmd.argc → ∀ t, cmd.args i = some t →
      t ≠ "<" ∧ t ≠ ">" ∧ t ≠ ">>" ∧ t ≠ "&" := by
  simp only [parse_command, parse_tokens] at h
  split at h
  · exact Option.noConfusion h
  · injection h with h
    subst h
    intro i hi t ht
    have hi2 : i < (parseLoop (tokenize (truncLine line)) (initCommand stale)).argc := hi
    have hne : i ≠ (parseLoop (tokenize (truncLine line)) (initCommand stale)).argc :=
      Nat.ne_of_lt hi2
    dsimp only at ht
    rw [if_neg hne] at ht
    obtain ⟨t2, ht2, hctl⟩ :=
      (parseLoop_filled (tokenize (truncLine line)) (initCommand stale)).2.2 i
        (Nat.zero_le i) hi2
    have heq : t2 = t := by
      rw [ht2] at ht
      exact (Option.some_inj.mp ht)
    subst heq
    have hc : ((t2 ≠ "<" ∧ t2 ≠ ">") ∧ t2 ≠ ">>") ∧ t2 ≠ "&" := by
      simpa [isCtlTok] using hctl
    exact ⟨hc.1.1.1, hc.1.1.2, hc.1.2, hc.2⟩

/-- Witness for C7 at the line "ls": the collected argument "ls" is not a
control token. -/
theorem claim_C7_no_control_token_argument_witness :
    "ls" ≠ "<" ∧ "ls" ≠ ">" ∧ "ls" ≠ ">>" ∧ "ls" ≠ "&" :=
  claim_C7_no_control_token_argument stale0 "ls" lsCmd rfl 0 (by decide) "ls" rfl

set_option maxRecDepth 8192 in
/-- C8 counterexample: the line capLine contains the output-redirection
token ">" twice (targets "x" and then "y"), yet because 63 ordinary
arguments fill the buffer before the first ">" is reached, the loop stops
and the parsed Command has no output redirection at all — not the last
target "y" as the claim states. -/
theorem claim_C8_counterexample :
    (tokenize (truncLine capLine)).count ">" = 2 ∧
    (parse_command stale0 capLine).map Command.output_file = some none ∧
    (parse_command stale0 capLine).map Command.output_file ≠
      some (some "y") := by decide

/-- C8 amended: for a command name followed by any sequence of complete
redirection clauses (so the argument cap is never reached), parsing
succeeds without error and records the last occurrence in token-scan
order: the last `<` target becomes input_redirect, the last `>` or `>>`
target becomes output_redirect with append_output set by that last
operator kind.  When the cap is reached first, the remaining redirection
tokens are dropped instead (see the counterexample). -/
theorem claim_C8_last_redirection_wins (stale : Nat → Option String)
    (name : String) (rs : List Redir) (hname : isCtlTok name = false) :
    (parse_tokens stale (name :: redirToks rs)).map Command.input_file =
      some (specLastInput rs) ∧
    (parse_tokens stale (name :: redirToks rs)).map Command.output_file =
      some (specLastOutput rs).1 ∧
    (parse_tokens stale (name :: redirToks rs)).map Command.append_mode =
      some (specLastOutput rs).2 ∧
    (parse_tokens stale (name :: redirToks rs)).map Command.argc = some 1 ∧
    (parse_tokens stale (name :: redirToks rs)).map (fun c => c.args 0) =
      some (some name) := by
  have hc : ((name ≠ "<" ∧ name ≠ ">") ∧ name ≠ ">>") ∧ name ≠ "&" := by
    simpa [isCtlTok] using hname
  obtain ⟨⟨⟨h1, h2⟩, h3⟩, h4⟩ := hc
  simp only [parse_tokens]
  rw [parseLoop_arg _ _ _ (by simp [initCommand, MAX_ARGS]) h1 h2 h3 h4,
    parseLoop_redirToks _ _ (by simp [setArg, initCommand, MAX_ARGS])]
  simp [setArg, initCommand, specLastInput, specLastOutput]

/-- Witness for C8 amended at the clause sequence
"sort < a > x < b >> y": the last `<` target "b" and the last output
target "y" (append, from ">>") win. -/
theorem claim_C8_last_redirection_wins_witness :
    (parse_tokens stale0 ("sort" :: redirToks
        [.inp "a", .outw "x", .inp "b", .outa "y"])).map Command.input_file =
      some (specLastInput [.inp "a", .outw "x", .inp "b", .outa "y"]) ∧
    (parse_tokens stale0 ("sort" :: redirToks
        [.inp "a", .outw "x", .inp "b", .outa "y"])).map Command.output_file =
      some (specLastOutput [.inp "a", .outw "x", .inp "b", .outa "y"]).1 ∧
    (parse_tokens stale0 ("sort" :: redirToks
        [.inp "a", .outw "x", .inp "b", .outa "y"])).map Command.append_mode =
      some (specLastOutput [.inp "a", .outw "x", .inp "b", .outa "y"]).2 ∧
    (parse_tokens stale0 ("sort" :: redirToks
        [.inp "a", .outw "x", .inp "b", .outa "y"])).map Command.argc = some 1 ∧
    (parse_tokens stale0 ("sort" :: redirToks
        [.inp "a", .outw "x", .inp "b", .outa "y"])).map (fun c => c.args 0) =
      some (some "sort") :=
  claim_C8_last_redirection_wins stale0 "sort"
    [.inp "a", .outw "x", .inp "b", .outa "y"] (by decide)

/-- C9 counterexample: in the line "sort < in.txt <" the token "<" is the
last token, yet the parsed Command has input_redirect = "in.txt" — set,
not unset, because the earlier `<` consumed its target. -/
theorem claim_C9_counterexample :
    (tokenize (truncLine "sort < in.txt <")).getLast? = some "<" ∧
    (parse_command stale0 "sort < in.txt <").map Command.input_file =
      some (some "in.txt") ∧
    (parse_command stale0 "sort < in.txt <").map Command.input_file ≠
      some none := by decide

/-- C9 amended: a trailing `<` with no token after it is silently ignored
as a no-op — parsing is identical to parsing the same token stream without
it — provided every earlier redirection operator has a target (otherwise
the trailing `<` is itself consumed as a file name of that operator).  In
particular input_redirect is unset only when the earlier tokens left it
unset. -/
theorem claim_C9_dangling_input_noop (stale : Nat → Option String)
    (ts : List String) (hwf : WfToks ts) :
    parse_tokens stale (ts ++ ["<"]) = parse_tokens stale ts := by
  unfold parse_tokens
  rw [parseLoop_trailing_input ts hwf (initCommand stale)]

/-- Witness for C9 amended at the token stream of "sort < in.txt". -/
theorem claim_C9_dangling_input_noop_witness :
    parse_tokens stale0 (["sort", "<", "in.txt"] ++ ["<"]) =
      parse_tokens stale0 ["sort", "<", "in.txt"] :=
  claim_C9_dangling_input_noop stale0 ["sort", "<", "in.txt"]
    (WfToks.plain "sort" _ (by decide)
      (WfToks.redir "<" "in.txt" [] (Or.inl rfl) WfToks.nil))

/-- C10: the argument array of every Command returned by parse_command is
NULL-terminated at index argc, and every slot below argc holds a non-NULL
argument string. -/
theorem claim_C10_args_null_terminated (stale : Nat → Option String)
    (line : String) (cmd : Command)
    (h : parse_command stale line = some cmd) :
    cmd.args cmd.argc = none ∧
    ∀ i, i < cmd.argc → ∃ t, cmd.args i = some t := by
  simp only [parse_command, parse_tokens] at h
  split at h
  · exact Option.noConfusion h
  · injection h with h
    subst h
    refine ⟨by simp, ?_⟩
    intro i hi
    have hi2 : i < (parseLoop (tokenize (truncLine line)) (initCommand stale)).argc := hi
    have hne : i ≠ (parseLoop (tokenize (truncLine line)) (initCommand stale)).argc :=
      Nat.ne_of_lt hi2
    obtain ⟨t, ht, _⟩ :=
      (parseLoop_filled (tokenize (truncLine line)) (initCommand stale)).2.2 i
        (Nat.zero_le i) hi2
    exact ⟨t, by simp [hne, ht]⟩

/-- Witness for C10 at the parsed command of "quit now &": the slot at
argc is NULL. -/
theorem claim_C10_args_null_terminated_witness :
    quitCmd.args quitCmd.argc = none :=
  (claim_C10_args_null_terminated stale0 "quit now &" quitCmd rfl).1

end MyShell
